import Mathlib

/-!
Shallow embedding of the consignment-tracking application's shipment
lifecycle core (src/app.py) and of the Telegram bot's checkpoint command
(src/telegram_bot.py).

Conventions of the embedding:
* SQL rows become Lean structures; the database becomes explicit lists of
  rows threaded through each operation.
* Python `float` coordinates become `Rat` (the operations under study are
  linear interpolation, comparison and bounded jitter, all exact on `Rat`).
* `datetime` values become a `Nat` virtual clock measured in hours;
  `timedelta(hours=h)` becomes `+ h`.
* Fallible handlers return `Except`; a Python `None`-able column becomes
  `Option`; Python truthiness of an optional string is `pyTruthy`.
* `random.uniform(-0.01, 0.01)` becomes an explicit jitter function
  `dev : Nat -> Rat`, constrained by hypotheses where a claim needs the
  bound.
* The cooperative pause flag that the simulation loop re-reads at the top
  of each iteration (`simulation_state.status != 'running'`) becomes a
  function `running : Nat -> Bool` giving the externally visible status
  at iteration `i`.
* A Python `ZeroDivisionError` inside the simulation loop is modelled by
  `Option`: `simStepStatus` returns `none` exactly when the source would
  raise, and the loop then aborts the way the task's `except` clause does.
-/

namespace Consignment

/-- Shipment row (SQLAlchemy model `Shipment`, src/app.py:662). -/
structure Shipment where
  id : Nat
  tracking : String
  title : String
  originLat : Rat
  originLng : Rat
  destLat : Rat
  destLng : Rat
  status : String
  eta : Option Nat := none
  deriving Repr, DecidableEq

/-- Checkpoint row (SQLAlchemy model `Checkpoint`, src/app.py:699). -/
structure Checkpoint where
  shipmentId : Nat
  position : Nat
  lat : Rat
  lng : Rat
  label : String
  note : Option String := none
  status : Option String := none
  proofPhoto : Option String := none
  timestamp : Nat
  deriving Repr, DecidableEq

/-- Subscriber row (SQLAlchemy model `Subscriber`, src/app.py:725).
The table has only an integer primary key: no uniqueness constraint on
`(shipment_id, email)` is declared in the source. -/
structure Subscriber where
  shipmentId : Nat
  email : String
  phone : Option String := none
  isActive : Bool := true
  deriving Repr, DecidableEq

/-- SimulationState row (SQLAlchemy model `SimulationState`, src/app.py:732). -/
structure SimulationState where
  shipmentId : Nat
  tracking : String
  status : String
  currentPosition : Nat
  waypoints : List (Rat × Rat)
  currentTime : Nat
  numPoints : Nat
  stepHours : Nat
  deriving Repr, DecidableEq

/-- The database: the four tables the claims touch, each a list of rows in
insertion order. -/
structure DB where
  shipments : List Shipment
  checkpoints : List Checkpoint
  subscribers : List Subscriber
  simStates : List SimulationState
  deriving Repr, DecidableEq

/-- Python truthiness of an optional string (`if value:`): `None` and the
empty string are falsy. -/
def pyTruthy : Option String → Bool
  | none => false
  | some s => s ≠ ""

/-- `Shipment.query.filter_by(tracking=...).first()`. -/
def findShipment (db : DB) (tracking : String) : Option Shipment :=
  db.shipments.find? (fun s => s.tracking == tracking)

/-- `Shipment.query.get(shipment_id)`. -/
def findShipmentById (db : DB) (sid : Nat) : Option Shipment :=
  db.shipments.find? (fun s => s.id == sid)

/-- `SimulationState.query.filter_by(shipment_id=...).first()`. -/
def findSimState (db : DB) (sid : Nat) : Option SimulationState :=
  db.simStates.find? (fun st => st.shipmentId == sid)

/-- `db.session.query(func.max(Checkpoint.position)).filter_by(shipment_id=...)
.scalar() or 0` (src/app.py:1261 and src/app.py:864): the maximum position
among the shipment's checkpoints, with both SQL `NULL` (no rows) and a
falsy `0` collapsing to `0`. -/
def maxPosition (db : DB) (sid : Nat) : Nat :=
  (db.checkpoints.filter (fun c => c.shipmentId == sid)).foldl
    (fun m c => max m c.position) 0

/-- `SELECT COUNT(*) FROM checkpoints WHERE shipment_id=?`
(src/telegram_bot.py:78). -/
def countCheckpoints (db : DB) (sid : Nat) : Nat :=
  (db.checkpoints.filter (fun c => c.shipmentId == sid)).length

/-- The positions of a shipment's checkpoints in insertion order. -/
def shipPositions (db : DB) (sid : Nat) : List Nat :=
  (db.checkpoints.filter (fun c => c.shipmentId == sid)).map
    (fun c => c.position)

/-- Replace the row of shipment `s` by `s'` (the ORM flushing the mutated
object on commit). -/
def updateShipment (db : DB) (sid : Nat) (s' : Shipment) : DB :=
  { db with shipments := db.shipments.map (fun t => if t.id == sid then s' else t) }

/-- The `ShipmentStatus` enum values (src/app.py:71). -/
def statusValues : List String :=
  ["Created", "In Transit", "Out for Delivery", "Delivered"]

/-- Errors surfaced by the API checkpoint route (HTTP 404 / 400). -/
inductive ApiError
  | notFound
  | validationFailed
  deriving Repr, DecidableEq

/-- The shared checkpoint transaction (src/app.py:1261-1278, identical block
at src/app.py:864-881): compute `position = max + 1`, build the row, and if
the provided status is truthy overwrite the shipment status and — when the
new status is the terminal `"Delivered"` — set the ETA to the checkpoint's
timestamp. -/
def appendCpTxn (db : DB) (s : Shipment) (lat lng : Rat) (label : String)
    (note status proofPhoto : Option String) (now : Nat) : DB × Checkpoint :=
  let position := maxPosition db s.id
  let cp : Checkpoint :=
    { shipmentId := s.id, position := position + 1, lat := lat, lng := lng,
      label := label, note := note, status := status,
      proofPhoto := proofPhoto, timestamp := now }
  let s' :=
    if pyTruthy status then
      let st := status.getD ""
      { s with status := st,
               eta := if st == "Delivered" then some now else s.eta }
    else s
  let db' := updateShipment db s.id s'
  ({ db' with checkpoints := db'.checkpoints ++ [cp] }, cp)

/-- API route `POST /shipments/<tracking>/checkpoints` (`add_checkpoint`,
src/app.py:1245): look the shipment up (404 when absent), run the
`CheckpointCreate` label validator, then the checkpoint transaction.
Coordinates arrive resolved (the geocoding branch is an external
collaborator), and every string field arrives already stripped (the route
strips them all at src/app.py:1254), so the validator's
`not bleach.clean(v.strip())` emptiness test is emptiness of the value
itself. -/
def add_checkpoint (db : DB) (tracking : String) (lat lng : Rat)
    (label : String) (note status proofPhoto : Option String) (now : Nat) :
    Except ApiError (DB × Checkpoint) :=
  match findShipment db tracking with
  | none => .error .notFound
  | some s =>
    if label == "" then .error .validationFailed
    else .ok (appendCpTxn db s lat lng label note status proofPhoto now)

/-- The database after `add_checkpoint`: unchanged on error (the route
returns without mutating), updated on success. -/
def add_checkpoint_db (db : DB) (tracking : String) (lat lng : Rat)
    (label : String) (note status proofPhoto : Option String) (now : Nat) : DB :=
  match add_checkpoint db tracking lat lng label note status proofPhoto now with
  | .ok p => p.1
  | .error _ => db

/-- Errors surfaced by the admin checkpoint form (`handle_checkpoint_form`,
src/app.py:826). -/
inductive FormError
  | missingFields
  | inputTooLong
  | invalidStatus
  | notFound
  deriving Repr, DecidableEq

/-- Admin form handler `handle_checkpoint_form` (src/app.py:826): field
presence and length checks, the status whitelist, shipment lookup, then the
same checkpoint transaction as the API route. -/
def handle_checkpoint_form (db : DB) (tracking : String) (lat lng : Rat)
    (label : String) (note status proofPhoto : Option String) (now : Nat) :
    Except FormError (DB × Checkpoint) :=
  if tracking == "" || label == "" then .error .missingFields
  else if tracking.length > 50 || label.length > 100
      || (match note with | some v => v.length > 500 | none => false)
      || (match proofPhoto with | some v => v.length > 500 | none => false) then
    .error .inputTooLong
  else if pyTruthy status && !(statusValues.contains (status.getD "")) then
    .error .invalidStatus
  else
    match findShipment db tracking with
    | none => .error .notFound
    | some s => .ok (appendCpTxn db s lat lng label note status proofPhoto now)

/-- Telegram bot `/addcp` command (`cmd_addcp`, src/telegram_bot.py:62):
looks the shipment up, then inserts a checkpoint whose position is the
COUNT of the shipment's existing checkpoints (0-based), with no status. -/
def cmd_addcp (db : DB) (tracking : String) (lat lng : Rat)
    (label : String) (note : Option String) (now : Nat) :
    Except ApiError (DB × Checkpoint) :=
  match findShipment db tracking with
  | none => .error .notFound
  | some s =>
    let cp : Checkpoint :=
      { shipmentId := s.id, position := countCheckpoints db s.id,
        lat := lat, lng := lng, label := label, note := note,
        status := none, proofPhoto := none, timestamp := now }
    .ok ({ db with checkpoints := db.checkpoints ++ [cp] }, cp)

/-- Errors surfaced by shipment creation (`create_shipment`,
src/app.py:1180-1241): pydantic `ShipmentCreate` validation (400) and the
unique-constraint `IntegrityError` on `Shipment.tracking` (409). -/
inductive CreateError
  | validationFailed
  | duplicateTracking
  deriving Repr, DecidableEq

/-- The `ShipmentCreate` / `Coordinate` pydantic validation
(src/app.py:572-647): non-empty tracking and title (the route strips every
string field before validating, src/app.py:1181, so the validators'
strip-then-test is emptiness of the value itself), latitudes in [-90, 90],
longitudes in [-180, 180], status one of the enum values. -/
def shipmentCreateValid (tracking title : String)
    (oLat oLng dLat dLng : Rat) (status : String) : Bool :=
  tracking != "" && title != "" &&
  (-90 ≤ oLat && oLat ≤ 90) && (-180 ≤ oLng && oLng ≤ 180) &&
  (-90 ≤ dLat && dLat ≤ 90) && (-180 ≤ dLng && dLng ≤ 180) &&
  statusValues.contains status

/-- API route `POST /shipments` (`create_shipment`, src/app.py:1180):
validate, then insert; committing a row whose tracking number already
exists violates the `unique=True` constraint on `Shipment.tracking`
(src/app.py:664) and raises `IntegrityError`, which the route maps to the
duplicate-tracking 409 after rolling back. The haversine distance and the
speed-based ETA are computed from the wall clock and trigonometric
functions, both external to this embedding; the resulting ETA value is
passed in as `etaVal`. -/
def create_shipment (db : DB) (newId : Nat) (tracking title : String)
    (oLat oLng dLat dLng : Rat) (status : String) (etaVal : Nat) :
    Except CreateError (DB × Shipment) :=
  if !(shipmentCreateValid tracking title oLat oLng dLat dLng status) then
    .error .validationFailed
  else if db.shipments.any (fun s => s.tracking == tracking) then
    .error .duplicateTracking
  else
    let s : Shipment :=
      { id := newId, tracking := tracking, title := title,
        originLat := oLat, originLng := oLng, destLat := dLat,
        destLng := dLng, status := status, eta := some etaVal }
    .ok ({ db with shipments := db.shipments ++ [s] }, s)

/-- Errors surfaced by `POST /shipments/<tracking>/subscribe` (`subscribe`,
src/app.py:1309). -/
inductive SubscribeError
  | contactRequired
  | notFound
  deriving Repr, DecidableEq

/-- API route `subscribe` (src/app.py:1309): requires a truthy email or
phone and an existing shipment, then inserts a fresh `Subscriber` row
(`email or ''`, `phone or None`, `is_active` defaulting to true). The
source performs no lookup of an existing subscription and the table has no
uniqueness constraint, so the insert always succeeds. -/
def subscribe (db : DB) (tracking : String) (email phone : Option String) :
    Except SubscribeError DB :=
  if !(pyTruthy email) && !(pyTruthy phone) then .error .contactRequired
  else
    match findShipment db tracking with
    | none => .error .notFound
    | some s =>
      let sub : Subscriber :=
        { shipmentId := s.id, email := email.getD "",
          phone := if pyTruthy phone then phone else none, isActive := true }
      .ok { db with subscribers := db.subscribers ++ [sub] }

/-- The database after `subscribe`: unchanged on error, updated on success. -/
def subscribe_db (db : DB) (tracking : String) (email phone : Option String) : DB :=
  match subscribe db tracking email phone with
  | .ok db' => db'
  | .error _ => db

/-- The active subscriber rows of a shipment for one contact email. -/
def activeSubscriberRows (db : DB) (sid : Nat) (email : String) : List Subscriber :=
  db.subscribers.filter (fun x => x.shipmentId == sid && x.email == email && x.isActive)

/-- `generate_waypoints` (src/app.py:1352): `numPoints + 1` points, the
`i`-th linearly interpolated at `t = i / numPoints` and shifted by one
jitter draw `dev i` added to both coordinates
(`random.uniform(-0.01, 0.01)` in the source). -/
def generate_waypoints (startLat startLng endLat endLng : Rat)
    (numPoints : Nat) (dev : Nat → Rat) : List (Rat × Rat) :=
  (List.range (numPoints + 1)).map fun (i : Nat) =>
    let t : Rat := (i : Rat) / (numPoints : Rat)
    (startLat + t * (endLat - startLat) + dev i,
     startLng + t * (endLng - startLng) + dev i)

/-- The exact interpolation point without jitter, for comparison. -/
def interpPoint (a b : Rat) (i numPoints : Nat) : Rat :=
  a + ((i : Rat) / (numPoints : Rat)) * (b - a)

/-- The ordered status progression `statuses` of the simulation loop
(src/app.py:1393). -/
def simStatuses : List String :=
  ["In Transit", "Out for Delivery", "Delivered"]

/-- The per-step status expression of the simulation loop
(src/app.py:1398):
`statuses[min(i // (num_points // len(statuses)), len(statuses) - 1)]
 if i == num_points else None`.
The outer `none` models the `ZeroDivisionError` that Python raises when
`num_points // 3 == 0`; otherwise the result is the optional status of the
checkpoint created at step `i`. -/
def simStepStatus (numPoints i : Nat) : Option (Option String) :=
  if i == numPoints then
    if numPoints / 3 == 0 then none
    else some (some (simStatuses.getD
      (min (i / (numPoints / 3)) (simStatuses.length - 1)) ""))
  else some none

/-- How one traversal of the simulation loop ended. -/
inductive SimOutcome
  | finished
  | stopped
  | crashed
  deriving Repr, DecidableEq

/-- Result of one traversal of the simulation loop: the checkpoints it
created in order, the shipment status and ETA it left behind, the persisted
cursor (`current_position`, `current_time`) and how it ended. -/
structure SimRun where
  cps : List Checkpoint
  shipStatus : String
  shipEta : Option Nat
  curPos : Nat
  savedTime : Nat
  outcome : SimOutcome
  deriving Repr, DecidableEq

/-- The `for i, (lat, lng) in enumerate(waypoints[start_position:],
start_position + 1)` loop of `run_simulation_async` (src/app.py:1394-1428).
Arguments after `running` are the remaining waypoints, the enumeration
index `i`, the shipment status, the shipment ETA, the local `current_time`,
and the persisted `current_position` / `current_time` pair. Each iteration
re-reads the externally visible run status (`running i`); a step inserts a
checkpoint at position `i` with timestamp `current_time`, applies the
status transition (only when the step status is truthy and differs from the
shipment's), persists the cursor, then advances the local clock by
`step_hours`. A `none` from `simStepStatus` aborts the task the way the
uncaught `ZeroDivisionError` does, before that step's transaction. -/
def simLoopGo (shipId numPoints stepHours : Nat) (running : Nat → Bool) :
    List (Rat × Rat) → Nat → String → Option Nat → Nat → Nat → Nat → SimRun
  | [], _, st, eta, _, curPos, saved =>
    { cps := [], shipStatus := st, shipEta := eta, curPos := curPos,
      savedTime := saved, outcome := .finished }
  | (lat, lng) :: rest, i, st, eta, clock, curPos, saved =>
    if !(running i) then
      { cps := [], shipStatus := st, shipEta := eta, curPos := curPos,
        savedTime := saved, outcome := .stopped }
    else
      match simStepStatus numPoints i with
      | none =>
        { cps := [], shipStatus := st, shipEta := eta, curPos := curPos,
          savedTime := saved, outcome := .crashed }
      | some cpStatus =>
        let cp : Checkpoint :=
          { shipmentId := shipId, position := i, lat := lat, lng := lng,
            label := "Checkpoint " ++ toString i,
            note := some ("Simulated checkpoint at " ++ toString clock),
            status := cpStatus, proofPhoto := none, timestamp := clock }
        let next :=
          match cpStatus with
          | some sv =>
            if sv != st then
              (sv, if sv == "Delivered" then some clock else eta)
            else (st, eta)
          | none => (st, eta)
        let r := simLoopGo shipId numPoints stepHours running rest (i + 1)
          next.1 next.2 (clock + stepHours) i clock
        { r with cps := cp :: r.cps }

/-- Celery task `run_simulation_async` (src/app.py:1365): load the
shipment, reuse a persisted `SimulationState` (cursor, waypoint list,
virtual clock) or create a fresh one with generated waypoints, traverse the
loop, then write back the created checkpoints, the shipment mutations, the
cursor, and the final run status: `completed` only when the loop finished
while still running; a stop leaves the externally written `paused`; a crash
leaves `running` behind. Returns the task's run record alongside the
database (`none` when the shipment is absent and the task just logs). -/
def run_simulation_async (db : DB) (shipmentId numPoints stepHours : Nat)
    (dev : Nat → Rat) (now : Nat) (running : Nat → Bool) :
    DB × Option SimRun :=
  match findShipmentById db shipmentId with
  | none => (db, none)
  | some s =>
    let prior := findSimState db shipmentId
    let startPos := match prior with | some st => st.currentPosition | none => 0
    let ws := match prior with
      | some st => st.waypoints
      | none => generate_waypoints s.originLat s.originLng s.destLat s.destLng numPoints dev
    let clock := match prior with | some st => st.currentTime | none => now
    let r := simLoopGo s.id numPoints stepHours running
      (ws.drop startPos) (startPos + 1) s.status s.eta clock startPos clock
    let finalStatus := match r.outcome with
      | .finished => "completed"
      | .stopped => "paused"
      | .crashed => "running"
    let st' : SimulationState :=
      { shipmentId := s.id, tracking := s.tracking, status := finalStatus,
        currentPosition := r.curPos, waypoints := ws,
        currentTime := r.savedTime, numPoints := numPoints,
        stepHours := stepHours }
    let s' := { s with status := r.shipStatus, eta := r.shipEta }
    let db' := updateShipment db s.id s'
    let db'' := { db' with
      checkpoints := db'.checkpoints ++ r.cps,
      simStates := match prior with
        | some _ => db'.simStates.map
            (fun t => if t.shipmentId == s.id then st' else t)
        | none => db'.simStates ++ [st'] }
    (db'', some r)

/-- Errors surfaced by the admin simulation form (`handle_simulation_form`,
src/app.py:898). -/
inductive SimFormError
  | missingFields
  | rangeInvalid
  | notFound
  | alreadyDelivered
  | alreadyRunning
  deriving Repr, DecidableEq

/-- A `run_simulation_async.delay(...)` dispatch: the arguments the form
hands the background task on success. -/
structure SimStart where
  shipmentId : Nat
  numPoints : Nat
  stepHours : Nat
  deriving Repr, DecidableEq

/-- Admin form handler `handle_simulation_form` (src/app.py:898): field
presence, `2 <= num_points <= 10` and `1 <= step_hours <= 24`, shipment
lookup (404), rejection when the shipment is already Delivered or a
simulation with status `running` already exists, and otherwise the task
dispatch. On every error path no task is dispatched. -/
def handle_simulation_form (db : DB) (tracking : String)
    (numPoints stepHours : Int) : Except SimFormError SimStart :=
  if tracking == "" then .error .missingFields
  else if numPoints < 2 || numPoints > 10 || stepHours < 1 || stepHours > 24 then
    .error .rangeInvalid
  else
    match findShipment db tracking with
    | none => .error .notFound
    | some s =>
      if s.status == "Delivered" then .error .alreadyDelivered
      else
        match findSimState db s.id with
        | some st =>
          if st.status == "running" then .error .alreadyRunning
          else .ok { shipmentId := s.id, numPoints := numPoints.toNat,
                     stepHours := stepHours.toNat }
        | none => .ok { shipmentId := s.id, numPoints := numPoints.toNat,
                        stepHours := stepHours.toNat }

/-- Errors surfaced by the pause / continue simulation routes
(src/app.py:1012 and src/app.py:1035). -/
inductive SimRouteError
  | notFound
  | noSimulation
  deriving Repr, DecidableEq

/-- Route `POST /continue_simulation/<tracking>` (`continue_simulation`,
src/app.py:1035): requires the shipment and a simulation state with status
`paused`; sets the status back to `running` and re-dispatches
`run_simulation_async` with the state's own `num_points` / `step_hours`. -/
def continue_simulation (db : DB) (tracking : String)
    (dev : Nat → Rat) (now : Nat) (running : Nat → Bool) :
    Except SimRouteError (DB × Option SimRun) :=
  match findShipment db tracking with
  | none => .error .notFound
  | some s =>
    match findSimState db s.id with
    | none => .error .noSimulation
    | some st =>
      if st.status != "paused" then .error .noSimulation
      else
        let db1 := { db with simStates := (db.simStates.map
          (fun t => if t.shipmentId == s.id then { t with status := "running" } else t)) }
        .ok (run_simulation_async db1 s.id st.numPoints st.stepHours dev now running)

/-! ## Concrete fixtures used by counterexamples and witnesses,
and the positions-only loop skeleton -/

/-- A concrete shipment: origin (0, 0), destination (4, 4), freshly
created. -/
def exShipment : Shipment :=
  { id := 1, tracking := "TRK1", title := "Consignment",
    originLat := 0, originLng := 0, destLat := 4, destLng := 4,
    status := "Created", eta := none }

/-- A one-shipment database with no checkpoints, subscribers or
simulation state. -/
def exDB : DB :=
  { shipments := [exShipment], checkpoints := [], subscribers := [],
    simStates := [] }

/-- Projection: the position of the checkpoint a successful append
returned. -/
def cpPosition : Except ApiError (DB × Checkpoint) → Option Nat
  | .ok p => some p.2.position
  | .error _ => none

/-- The checkpoint the API append of `"Picked up"` onto `exDB` creates. -/
def exCp1 : Checkpoint :=
  { shipmentId := 1, position := 1, lat := 0, lng := 0,
    label := "Picked up", note := none, status := none,
    proofPhoto := none, timestamp := 0 }

/-- `exDB` after that API append. -/
def exDBafterApi : DB :=
  { shipments := [exShipment], checkpoints := [exCp1],
    subscribers := [], simStates := [] }

/-- The checkpoint a second API append (`"Depot"`) creates. -/
def exCp2 : Checkpoint :=
  { shipmentId := 1, position := 2, lat := 2, lng := 2,
    label := "Depot", note := none, status := none,
    proofPhoto := none, timestamp := 5 }

/-- `exDBafterApi` after that second API append. -/
def exDBafterApi2 : DB :=
  { shipments := [exShipment], checkpoints := [exCp1, exCp2],
    subscribers := [], simStates := [] }

/-- The database after an API checkpoint append onto `exDB` followed by a
fresh 4-point simulation run on the same shipment. -/
def c1DB : DB :=
  (run_simulation_async
    (add_checkpoint_db exDB "TRK1" 0 0 "Picked up" none none none 0)
    1 4 2 (fun _ => 0) 0 (fun _ => true)).1

/-- `exShipment` after a Delivered checkpoint stamped at time 7. -/
def exShipmentDelivered : Shipment :=
  { exShipment with status := "Delivered", eta := some 7 }

/-- The Delivered checkpoint of the C3 witness. -/
def exDeliveredCp : Checkpoint :=
  { shipmentId := 1, position := 1, lat := 4, lng := 4,
    label := "Delivered to door", note := none, status := some "Delivered",
    proofPhoto := none, timestamp := 7 }

/-- Result of appending that Delivered checkpoint onto `exDB`. -/
def exDeliveredResult : DB × Checkpoint :=
  ({ shipments := [exShipmentDelivered], checkpoints := [exDeliveredCp],
     subscribers := [], simStates := [] }, exDeliveredCp)

/-- The database after an uninterrupted fresh 4-point simulation of
`exDB`'s shipment (step 2 hours, virtual clock starting at 0, zero
jitter). -/
def c2DB : DB :=
  (run_simulation_async exDB 1 4 2 (fun _ => 0) 0 (fun _ => true)).1

/-- A shipment already Delivered, for the C8 witness. -/
def c8Delivered : Shipment :=
  { id := 7, tracking := "TRKD", title := "Done",
    originLat := 0, originLng := 0, destLat := 1, destLng := 1,
    status := "Delivered", eta := some 3 }

/-- A shipment whose simulation is running, for the C8 witness. -/
def c8Running : Shipment :=
  { id := 8, tracking := "TRKR", title := "Moving",
    originLat := 0, originLng := 0, destLat := 1, destLng := 1,
    status := "In Transit", eta := none }

/-- The running simulation state of `c8Running`. -/
def c8RunState : SimulationState :=
  { shipmentId := 8, tracking := "TRKR", status := "running",
    currentPosition := 1, waypoints := [(0, 0), (1, 1)], currentTime := 0,
    numPoints := 4, stepHours := 2 }

/-- The C8 witness database. -/
def c8DB : DB :=
  { shipments := [c8Delivered, c8Running], checkpoints := [],
    subscribers := [], simStates := [c8RunState] }

/-- Positions-only skeleton of the simulation loop: which positions a
traversal creates depends only on the number of remaining waypoints, the
enumeration index, the externally visible run status and `numPoints`. -/
def simLoopPos (numPoints : Nat) (running : Nat → Bool) : Nat → Nat → List Nat
  | 0, _ => []
  | len + 1, i =>
    if !(running i) then []
    else
      match simStepStatus numPoints i with
      | none => []
      | some _ => i :: simLoopPos numPoints running len (i + 1)

/-- A database holding exactly one shipment and nothing else (the fixture
the C7 statement quantifies over). -/
def singletonDB (s : Shipment) : DB :=
  { shipments := [s], checkpoints := [], subscribers := [], simStates := [] }

/-- Projection: the shipment's checkpoint positions after
`ContinueSimulation` with an always-running loop, or `none` when the route
fails. -/
def continuedPositions (db : DB) (tracking : String) (sid : Nat)
    (dev : Nat → Rat) (now : Nat) : Option (List Nat) :=
  match continue_simulation db tracking dev now (fun _ => true) with
  | .ok (db2, _) => some (shipPositions db2 sid)
  | .error _ => none

/-! ## Helper lemmas -/

/-- The initial accumulator never exceeds the running maximum of positions. -/
theorem le_foldl_max_position (l : List Checkpoint) :
    ∀ a : Nat, a ≤ l.foldl (fun m c => max m c.position) a := by
  induction l with
  | nil => intro a; exact le_refl a
  | cons h t ih =>
    intro a
    exact le_trans (le_max_left a h.position) (ih (max a h.position))

/-- Every position in the list is bounded by the running maximum. -/
theorem mem_le_foldl_max_position (l : List Checkpoint) :
    ∀ (a : Nat) (c : Checkpoint), c ∈ l →
      c.position ≤ l.foldl (fun m c => max m c.position) a := by
  induction l with
  | nil => intro _ c hc; cases hc
  | cons h t ih =>
    intro a c hc
    rcases List.mem_cons.mp hc with rfl | hmem
    · exact le_trans (le_max_right a c.position) (le_foldl_max_position t _)
    · exact ih (max a h.position) c hmem

/-- Every checkpoint of a shipment has position at most `maxPosition`. -/
theorem position_le_maxPosition (db : DB) (sid : Nat) (c : Checkpoint)
    (hc : c ∈ db.checkpoints) (hsid : c.shipmentId = sid) :
    c.position ≤ maxPosition db sid := by
  apply mem_le_foldl_max_position
  exact List.mem_filter.mpr ⟨hc, by simp [hsid]⟩

/-- A shipment with no checkpoint rows has `maxPosition` zero. -/
theorem maxPosition_eq_zero_of_no_rows (db : DB) (sid : Nat)
    (h : shipPositions db sid = []) : maxPosition db sid = 0 := by
  unfold shipPositions at h
  unfold maxPosition
  rw [List.map_eq_nil_iff.mp h]
  rfl

/-- Replacing the row found by `find?` (matching it by its primary key)
leaves it the row found by `find?`, provided ids are pairwise distinct and
the replacement still satisfies the search predicate. -/
theorem findReplaceById (l : List Shipment) (p : Shipment → Bool)
    (s r : Shipment) (hwf : l.Pairwise (fun a b => a.id ≠ b.id))
    (hfind : l.find? p = some s) (hpr : p r = true) :
    (l.map fun t => if t.id == s.id then r else t).find? p = some r := by
  induction l with
  | nil => simp at hfind
  | cons h t ih =>
    rcases List.pairwise_cons.mp hwf with ⟨hids, hwt⟩
    by_cases hph : p h = true
    · rw [List.find?_cons_of_pos _ hph] at hfind
      injection hfind with hs
      subst hs
      simp only [List.map_cons, beq_self_eq_true, if_true]
      exact List.find?_cons_of_pos _ hpr
    · have hph' : p h = false := by
        cases hp : p h
        · rfl
        · exact absurd hp hph
      rw [List.find?_cons_of_neg _ (by simp [hph'])] at hfind
      have hmem : s ∈ t := List.mem_of_find?_eq_some hfind
      have hid : h.id ≠ s.id := hids s hmem
      have hhead : (if h.id == s.id then r else h) = h := by simp [hid]
      simp only [List.map_cons, hhead]
      rw [List.find?_cons_of_neg _ (by simp [hph'])]
      exact ih hwt hfind

/-! ## C9 -/

/-- C9 counterexample: the claim says the first checkpoint appended to a
shipment receives position 1, for every append operation; but the Telegram
bot's `/addcp` (src/telegram_bot.py:78-80), listed as one of the claim's
append operations, assigns `position = COUNT(existing checkpoints)`, so the
first checkpoint it appends to a shipment receives position 0, not 1. -/
theorem telegram_first_checkpoint_position_zero :
    cpPosition (cmd_addcp exDB "TRK1" 0 0 "Scanned" none 0) = some 0 ∧
    cpPosition (cmd_addcp exDB "TRK1" 0 0 "Scanned" none 0) ≠ some 1 := by
  constructor
  · rfl
  · decide

/-- C9 amended: a successful append through the API route assigns
position `(max existing position for the shipment) + 1`, so its first
checkpoint receives position 1; the Telegram bot's append instead assigns
the count of the shipment's existing checkpoints, so its first checkpoint
receives position 0. -/
theorem append_position_rules (db : DB) (tracking : String) (lat lng : Rat)
    (label : String) (note status proofPhoto : Option String) (now : Nat) :
    (∀ p, add_checkpoint db tracking lat lng label note status proofPhoto now = .ok p →
      p.2.position = maxPosition db p.2.shipmentId + 1 ∧
      (shipPositions db p.2.shipmentId = [] → p.2.position = 1)) ∧
    (∀ q, cmd_addcp db tracking lat lng label note now = .ok q →
      q.2.position = countCheckpoints db q.2.shipmentId ∧
      (shipPositions db q.2.shipmentId = [] → q.2.position = 0)) := by
  constructor
  · intro p hp
    unfold add_checkpoint at hp
    split at hp
    · exact absurd hp (by simp)
    · rename_i s heq
      split at hp
      · exact absurd hp (by simp)
      · injection hp with hp
        subst hp
        refine ⟨rfl, fun hempty => ?_⟩
        have hempty' : shipPositions db s.id = [] := hempty
        show maxPosition db s.id + 1 = 1
        rw [maxPosition_eq_zero_of_no_rows db _ hempty']
  · intro q hq
    unfold cmd_addcp at hq
    split at hq
    · exact absurd hq (by simp)
    · rename_i s heq
      injection hq with hq
      subst hq
      refine ⟨rfl, fun hempty => ?_⟩
      have hempty' : shipPositions db s.id = [] := hempty
      show countCheckpoints db s.id = 0
      unfold countCheckpoints
      unfold shipPositions at hempty'
      rw [List.map_eq_nil_iff.mp hempty']
      rfl

/-- C9 witness: the position rules evaluated on the concrete database — an
API append onto the empty shipment yields position 1, a Telegram append
yields position 0. -/
theorem append_position_rules_witness :
    (add_checkpoint exDB "TRK1" 0 0 "Picked up" none none none 0 =
      .ok (exDBafterApi, exCp1)) ∧
    shipPositions exDB 1 = [] ∧ exCp1.position = 1 := by
  refine ⟨by rfl, by rfl, ?_⟩
  exact ((append_position_rules exDB "TRK1" 0 0 "Picked up" none none none 0).1
    (exDBafterApi, exCp1) (by rfl)).2 (by rfl)

/-! ## C1 -/

/-- C1 counterexample: positions are not strictly increasing in insertion
order across every checkpoint-creating operation, and position values are
reused. An API append assigns `max + 1 = 1`; a fresh simulation run started
afterwards enumerates its persisted waypoints from index 1
(src/app.py:1394, `position=i`) without consulting existing checkpoints, so
its first checkpoint reuses position 1: the shipment's insertion-ordered
position list is `[1, 1, 2, 3, 4, 5]`. -/
theorem position_reuse_api_then_simulation :
    shipPositions c1DB 1 = [1, 1, 2, 3, 4, 5] ∧
    ¬ List.Pairwise (fun a b => a < b) (shipPositions c1DB 1) := by
  constructor
  · rfl
  · decide

/-- C1 amended: within the API route and the admin checkpoint form alone
the invariant holds — a successful append assigns a position strictly
greater than every position already stored for that shipment (so positions
are strictly increasing in insertion order and never reused across those
two operations); the simulation loop and the Telegram bot do not respect
it. -/
theorem append_position_exceeds_existing (db : DB) (tracking : String)
    (lat lng : Rat) (label : String) (note status proofPhoto : Option String)
    (now : Nat) :
    (∀ p, add_checkpoint db tracking lat lng label note status proofPhoto now = .ok p →
      ∀ c ∈ db.checkpoints, c.shipmentId = p.2.shipmentId →
        c.position < p.2.position) ∧
    (∀ q, handle_checkpoint_form db tracking lat lng label note status proofPhoto now = .ok q →
      ∀ c ∈ db.checkpoints, c.shipmentId = q.2.shipmentId →
        c.position < q.2.position) := by
  constructor
  · intro p hp c hc hcid
    unfold add_checkpoint at hp
    split at hp
    · exact absurd hp (by simp)
    · rename_i s heq
      split at hp
      · exact absurd hp (by simp)
      · injection hp with hp
        subst hp
        have hle : c.position ≤ maxPosition db s.id :=
          position_le_maxPosition db s.id c hc hcid
        exact Nat.lt_succ_of_le hle
  · intro q hq c hc hcid
    unfold handle_checkpoint_form at hq
    split at hq
    · exact absurd hq (by simp)
    · split at hq
      · exact absurd hq (by simp)
      · split at hq
        · exact absurd hq (by simp)
        · split at hq
          · exact absurd hq (by simp)
          · rename_i s heq
            injection hq with hq
            subst hq
            have hle : c.position ≤ maxPosition db s.id :=
              position_le_maxPosition db s.id c hc hcid
            exact Nat.lt_succ_of_le hle

/-- C1 witness: the amended bound applied on `exDBafterApi` (one checkpoint
at position 1): a second API append assigns position 2 > 1. -/
theorem append_position_exceeds_existing_witness :
    (add_checkpoint exDBafterApi "TRK1" 2 2 "Depot" none none none 5 =
      .ok (exDBafterApi2, exCp2)) ∧
    exCp1 ∈ exDBafterApi.checkpoints ∧ exCp1.shipmentId = exCp2.shipmentId ∧
    exCp1.position < exCp2.position := by
  refine ⟨by rfl, by decide, by decide, ?_⟩
  exact (append_position_exceeds_existing exDBafterApi "TRK1" 2 2 "Depot"
    none none none 5).1 (exDBafterApi2, exCp2) (by rfl) exCp1 (by decide) (by decide)

/-! ## C4 -/

/-- C4 (code bug, evaluated at the failing input): `subscribe`
(src/app.py:1309) performs no lookup of an existing subscription and the
`Subscriber` table declares no uniqueness constraint (src/app.py:725-730),
so subscribing the same contact twice inserts two active rows instead of
leaving exactly one; the route's own `IntegrityError` handler ("Already
subscribed", 409) is unreachable for plain duplicates. -/
theorem subscribe_twice_duplicates_active_rows :
    (activeSubscriberRows
      (subscribe_db (subscribe_db exDB "TRK1" (some "a@b.com") none)
        "TRK1" (some "a@b.com") none) 1 "a@b.com").length = 2 := by
  rfl

/-! ## C5 -/

/-- C5: when a shipment with the given tracking number already exists,
`create_shipment` fails with the duplicate-tracking error for every choice
of the remaining fields that passes input validation, and — the result
being an error — no second shipment is inserted. (A payload that fails
`ShipmentCreate` validation is rejected as a `ValidationError` before the
insert is attempted, so no shipment is created on that path either.) -/
theorem duplicate_tracking_rejected (db : DB) (newId : Nat)
    (tracking title : String) (oLat oLng dLat dLng : Rat) (status : String)
    (etaVal : Nat) (s : Shipment) (hs : s ∈ db.shipments)
    (ht : s.tracking = tracking)
    (hvalid : shipmentCreateValid tracking title oLat oLng dLat dLng status = true) :
    create_shipment db newId tracking title oLat oLng dLat dLng status etaVal
      = .error .duplicateTracking := by
  unfold create_shipment
  rw [hvalid]
  have hdup : db.shipments.any (fun t => t.tracking == tracking) = true :=
    List.any_eq_true.mpr ⟨s, hs, by simp [ht]⟩
  rw [hdup]
  rfl

/-- C5 witness: re-creating `"TRK1"` over `exDB` with a different valid
payload is rejected as a duplicate. -/
theorem duplicate_tracking_rejected_witness :
    exShipment ∈ exDB.shipments ∧ exShipment.tracking = "TRK1" ∧
    shipmentCreateValid "TRK1" "Other title" 1 1 2 2 "In Transit" = true ∧
    create_shipment exDB 2 "TRK1" "Other title" 1 1 2 2 "In Transit" 99
      = .error .duplicateTracking := by
  refine ⟨by decide, by decide, by decide, ?_⟩
  exact duplicate_tracking_rejected exDB 2 "TRK1" "Other title" 1 1 2 2
    "In Transit" 99 exShipment (by decide) (by decide) (by decide)

/-! ## C3 -/

/-- Core of C3: the checkpoint transaction with provided status
`"Delivered"` leaves the shipment found under the tracking number with its
ETA equal to the new checkpoint's timestamp. -/
theorem appendCpTxn_delivered_eta (db : DB) (tracking : String) (s : Shipment)
    (lat lng : Rat) (label : String) (note proofPhoto : Option String)
    (now : Nat) (hwf : db.shipments.Pairwise (fun a b => a.id ≠ b.id))
    (heq : findShipment db tracking = some s) :
    (findShipment
        (appendCpTxn db s lat lng label note (some "Delivered") proofPhoto now).1
        tracking).map (fun t => t.eta) = some (some now) := by
  unfold findShipment at heq
  have hps : (s.tracking == tracking) = true := by
    have h := List.find?_some heq
    simpa using h
  have hfr := findReplaceById db.shipments (fun t => t.tracking == tracking) s
    { s with status := "Delivered", eta := some now } hwf heq hps
  show ((db.shipments.map fun t =>
      if t.id == s.id then { s with status := "Delivered", eta := some now } else t).find?
        (fun t => t.tracking == tracking)).map (fun t => t.eta) = some (some now)
  rw [hfr]
  rfl

/-- C3: an append whose provided status is `"Delivered"`, through the API
route or through the admin checkpoint form, leaves the shipment's ETA equal
to exactly the new checkpoint's timestamp, overwriting whatever ETA was
stored before (the transaction assigns `shipment.eta = checkpoint.timestamp`
unconditionally once the new status is the terminal one,
src/app.py:1277-1278 and src/app.py:880-881). The shipments table is
assumed to have pairwise-distinct primary keys. -/
theorem delivered_checkpoint_sets_eta (db : DB) (tracking : String)
    (lat lng : Rat) (label : String) (note proofPhoto : Option String)
    (now : Nat) (hwf : db.shipments.Pairwise (fun a b => a.id ≠ b.id)) :
    (∀ p, add_checkpoint db tracking lat lng label note (some "Delivered") proofPhoto now = .ok p →
      (findShipment p.1 tracking).map (fun t => t.eta) = some (some p.2.timestamp)) ∧
    (∀ q, handle_checkpoint_form db tracking lat lng label note (some "Delivered") proofPhoto now = .ok q →
      (findShipment q.1 tracking).map (fun t => t.eta) = some (some q.2.timestamp)) := by
  constructor
  · intro p hp
    unfold add_checkpoint at hp
    split at hp
    · exact absurd hp (by simp)
    · rename_i s heq
      split at hp
      · exact absurd hp (by simp)
      · injection hp with hp
        subst hp
        exact appendCpTxn_delivered_eta db tracking s lat lng label note
          proofPhoto now hwf heq
  · intro q hq
    unfold handle_checkpoint_form at hq
    split at hq
    · exact absurd hq (by simp)
    · split at hq
      · exact absurd hq (by simp)
      · split at hq
        · exact absurd hq (by simp)
        · split at hq
          · exact absurd hq (by simp)
          · rename_i s heq
            injection hq with hq
            subst hq
            exact appendCpTxn_delivered_eta db tracking s lat lng label note
              proofPhoto now hwf heq

/-- C3 witness: delivering `"TRK1"` on the concrete database stamps the
shipment's ETA with the checkpoint's timestamp 7. -/
theorem delivered_checkpoint_sets_eta_witness :
    exDB.shipments.Pairwise (fun a b => a.id ≠ b.id) ∧
    (add_checkpoint exDB "TRK1" 4 4 "Delivered to door" none
        (some "Delivered") none 7 = .ok (exDeliveredResult.1, exDeliveredResult.2)) ∧
    (findShipment exDeliveredResult.1 "TRK1").map (fun t => t.eta) =
      some (some exDeliveredResult.2.timestamp) := by
  refine ⟨?_, by rfl, ?_⟩
  · decide
  · exact (delivered_checkpoint_sets_eta exDB "TRK1" 4 4 "Delivered to door"
      none none 7 (by decide)).1 exDeliveredResult (by rfl)

/-! ## C2 -/

/-- C2 counterexample: the uninterrupted `numPoints = 4` run does create
exactly 5 checkpoints, but the status expression of the loop fires only at
`i == num_points` (src/app.py:1398), so `"Delivered"` is carried by the
fourth checkpoint — the second-to-last — while the last checkpoint carries
no status, contradicting the claim that the last created checkpoint
carries `"Delivered"`. -/
theorem simulation_last_checkpoint_lacks_delivered :
    c2DB.checkpoints.map (fun c => c.status) =
      [none, none, none, some "Delivered", none] ∧
    (c2DB.checkpoints.getLast?).map (fun c => c.status) ≠
      some (some "Delivered") := by
  constructor
  · rfl
  · decide

/-- C2 amended: an uninterrupted fresh `numPoints = 4` simulation of a
non-Delivered shipment creates exactly 5 checkpoints; the checkpoint at
position 4 (the second-to-last) carries status `"Delivered"` and the
shipment's ETA is set equal to that checkpoint's timestamp
(`now + 3 * stepHours`); the last checkpoint carries no status. -/
theorem simulation_four_points_run (s : Shipment) (stepHours now : Nat)
    (dev : Nat → Rat) (hnd : s.status ≠ "Delivered") :
    (run_simulation_async
        { shipments := [s], checkpoints := [], subscribers := [], simStates := [] }
        s.id 4 stepHours dev now (fun _ => true)).1.checkpoints.map
          (fun c => (c.position, c.status, c.timestamp)) =
      [(1, none, now), (2, none, now + stepHours),
       (3, none, now + stepHours + stepHours),
       (4, some "Delivered", now + stepHours + stepHours + stepHours),
       (5, none, now + stepHours + stepHours + stepHours + stepHours)] ∧
    (run_simulation_async
        { shipments := [s], checkpoints := [], subscribers := [], simStates := [] }
        s.id 4 stepHours dev now (fun _ => true)).1.shipments.map
          (fun t => t.eta) =
      [some (now + stepHours + stepHours + stepHours)] := by
  have h4 : (("Delivered" : String) == s.status) = false :=
    beq_eq_false_iff_ne.mpr (fun e => hnd e.symm)
  have hne : ¬(("Delivered" : String) = s.status) := fun e => hnd e.symm
  constructor <;>
    simp [run_simulation_async, findShipmentById, findSimState,
      generate_waypoints, updateShipment, simLoopGo, simStepStatus,
      show List.range 5 = [0, 1, 2, 3, 4] from rfl, h4, bne, simStatuses, hne]

/-- C2 witness: the amended statement evaluated on the concrete shipment
(`status = "Created"`, step 2 hours, clock 0, zero jitter). -/
theorem simulation_four_points_run_witness :
    exShipment.status ≠ "Delivered" ∧
    (run_simulation_async exDB 1 4 2 (fun _ => 0) 0 (fun _ => true)).1.shipments.map
      (fun t => t.eta) = [some 6] := by
  refine ⟨by decide, ?_⟩
  exact (simulation_four_points_run exShipment 2 0 (fun _ => 0) (by decide)).2

/-! ## C6 -/

/-- C6: for `numPoints ≥ 1` and any jitter draw bounded by 0.01 degrees in
absolute value (as `random.uniform(-0.01, 0.01)` guarantees),
`generate_waypoints` returns exactly `numPoints + 1` waypoints, and every
waypoint — the first and last included — differs from the exact linear
interpolation between origin and destination by at most 0.01 degrees in
latitude and 0.01 degrees in longitude. -/
theorem waypoint_count_and_jitter_bound (startLat startLng endLat endLng : Rat)
    (numPoints : Nat) (dev : Nat → Rat) (_hn : 1 ≤ numPoints)
    (hdev : ∀ i, |dev i| ≤ 1 / 100) :
    (generate_waypoints startLat startLng endLat endLng numPoints dev).length
      = numPoints + 1 ∧
    ∀ (i : Nat)
      (hi : i < (generate_waypoints startLat startLng endLat endLng numPoints dev).length),
      |((generate_waypoints startLat startLng endLat endLng numPoints dev)[i]).1
        - interpPoint startLat endLat i numPoints| ≤ 1 / 100 ∧
      |((generate_waypoints startLat startLng endLat endLng numPoints dev)[i]).2
        - interpPoint startLng endLng i numPoints| ≤ 1 / 100 := by
  refine ⟨by simp [generate_waypoints], ?_⟩
  intro i hi
  have hi' : i < numPoints + 1 := by
    simpa [generate_waypoints] using hi
  constructor <;>
  · simp only [generate_waypoints, List.getElem_map, List.getElem_range,
      interpPoint]
    have : ∀ a t : Rat, a + t + dev i - (a + t) = dev i := by intro a t; ring
    rw [this]
    exact hdev i

/-- C6 witness: two intermediate points between (0, 0) and (4, 4) with a
constant jitter of 1/200, checked at index 0. -/
theorem waypoint_count_and_jitter_bound_witness :
    (1 ≤ 2 ∧ ∀ i : Nat, |(fun _ : Nat => (1 : Rat) / 200) i| ≤ 1 / 100) ∧
    (generate_waypoints 0 0 4 4 2 (fun _ => 1 / 200)).length = 2 + 1 := by
  have hb : ∀ i : Nat, |(fun _ : Nat => (1 : Rat) / 200) i| ≤ 1 / 100 := by
    intro i
    rw [abs_of_pos (by norm_num)]
    norm_num
  refine ⟨⟨by norm_num, hb⟩, ?_⟩
  exact (waypoint_count_and_jitter_bound 0 0 4 4 2 (fun _ => 1 / 200)
    (by norm_num) hb).1

/-! ## C8 -/

/-- C8: with in-range inputs and a non-empty tracking string, the
simulation form fails with the not-found error when no shipment carries the
tracking number, and with an invalid-state error when the shipment is
already Delivered or a simulation with status `running` already exists for
it; every failure is an `Except.error`, which carries no `SimStart`, so no
simulation task is dispatched (the source reaches
`run_simulation_async.delay` only on the success path,
src/app.py:912-920). -/
theorem start_simulation_failure_modes (db : DB) (tracking : String)
    (numPoints stepHours : Int) (htr : tracking ≠ "")
    (hrange : 2 ≤ numPoints ∧ numPoints ≤ 10 ∧ 1 ≤ stepHours ∧ stepHours ≤ 24) :
    (findShipment db tracking = none →
      handle_simulation_form db tracking numPoints stepHours = .error .notFound) ∧
    (∀ s, findShipment db tracking = some s → s.status = "Delivered" →
      handle_simulation_form db tracking numPoints stepHours
        = .error .alreadyDelivered) ∧
    (∀ s st, findShipment db tracking = some s → s.status ≠ "Delivered" →
      findSimState db s.id = some st → st.status = "running" →
      handle_simulation_form db tracking numPoints stepHours
        = .error .alreadyRunning) := by
  have htr' : (tracking == "") = false := beq_eq_false_iff_ne.mpr htr
  have hr : (numPoints < 2 || numPoints > 10 || stepHours < 1 || stepHours > 24)
      = false := by
    simp only [Bool.or_eq_false_iff, decide_eq_false_iff_not, not_lt]
    omega
  refine ⟨?_, ?_, ?_⟩
  · intro hnone
    unfold handle_simulation_form
    rw [htr', hr, hnone]
    rfl
  · intro s hfind hdel
    unfold handle_simulation_form
    rw [htr', hr, hfind]
    simp [hdel]
  · intro s st hfind hdel hsim hrun
    unfold handle_simulation_form
    rw [htr', hr, hfind]
    have hdel' : (s.status == "Delivered") = false := beq_eq_false_iff_ne.mpr hdel
    simp [hdel', hsim, hrun]

/-- C8 witness: the three failure modes on a concrete database — an absent
tracking number, a Delivered shipment, and a shipment whose simulation is
running. -/
theorem start_simulation_failure_modes_witness :
    ("TRKX" : String) ≠ "" ∧
    (2 ≤ (4 : Int) ∧ (4 : Int) ≤ 10 ∧ 1 ≤ (2 : Int) ∧ (2 : Int) ≤ 24) ∧
    handle_simulation_form c8DB "TRKX" 4 2 = .error .notFound ∧
    handle_simulation_form c8DB "TRKD" 4 2 = .error .alreadyDelivered ∧
    handle_simulation_form c8DB "TRKR" 4 2 = .error .alreadyRunning := by
  refine ⟨by decide, by omega, ?_, ?_, ?_⟩
  · exact (start_simulation_failure_modes c8DB "TRKX" 4 2 (by decide)
      ⟨by omega, by omega, by omega, by omega⟩).1 (by rfl)
  · exact (start_simulation_failure_modes c8DB "TRKD" 4 2 (by decide)
      ⟨by omega, by omega, by omega, by omega⟩).2.1 c8Delivered (by rfl) (by rfl)
  · exact (start_simulation_failure_modes c8DB "TRKR" 4 2 (by decide)
      ⟨by omega, by omega, by omega, by omega⟩).2.2 c8Running c8RunState
      (by rfl) (by decide) (by rfl) (by rfl)

/-! ## C10 -/

/-- C10: the simulation form accepts `numPoints = 2` (its validated range
is 2-10, src/app.py:909), but at the step where `i == num_points` the
status expression divides by `num_points // 3 == 0`
(src/app.py:1398), so a fresh 2-point run raises the integer
division-by-zero after creating only its first checkpoint and the task
aborts (`simStepStatus` returns `none` and the run's outcome is
`crashed`); for every `numPoints ≥ 3` the divisor is nonzero and the
expression is well-defined. -/
theorem status_divisor_zero_at_two_points :
    (handle_simulation_form exDB "TRK1" 2 1 =
      .ok { shipmentId := 1, numPoints := 2, stepHours := 1 }) ∧
    simStepStatus 2 2 = none ∧
    ((run_simulation_async exDB 1 2 1 (fun _ => 0) 0 (fun _ => true)).2.map
      (fun r => (r.outcome, r.cps.length))) = some (.crashed, 1) ∧
    (∀ numPoints i : Nat, 3 ≤ numPoints → simStepStatus numPoints i ≠ none) := by
  refine ⟨by rfl, by rfl, by rfl, ?_⟩
  intro numPoints i h3
  unfold simStepStatus
  have hdiv : (numPoints / 3 == 0) = false := by
    have : 1 ≤ numPoints / 3 := (Nat.le_div_iff_mul_le (by omega)).mpr (by omega)
    simp
    omega
  by_cases hi : (i == numPoints) = true
  · rw [if_pos hi, hdiv]
    simp
  · rw [if_neg hi]
    simp

/-- C10 witness: for `numPoints = 3` (the smallest accepted value above 2)
the status expression is defined at every step. -/
theorem status_divisor_zero_at_two_points_witness :
    (3 ≤ 3 ∧ simStepStatus 3 3 ≠ none) ∧ (3 ≤ 4 ∧ simStepStatus 4 5 ≠ none) := by
  constructor
  · exact ⟨by omega, status_divisor_zero_at_two_points.2.2.2 3 3 (by omega)⟩
  · exact ⟨by omega, status_divisor_zero_at_two_points.2.2.2 4 5 (by omega)⟩

/-! ## C7 -/

/-- The positions of the checkpoints a loop traversal creates are its
positions-only skeleton. -/
theorem simLoopGo_positions (shipId numPoints stepHours : Nat)
    (running : Nat → Bool) :
    ∀ (ws : List (Rat × Rat)) (i : Nat) (st : String) (eta : Option Nat)
      (clock curPos saved : Nat),
      (simLoopGo shipId numPoints stepHours running ws i st eta clock curPos saved).cps.map
          (fun c => c.position)
        = simLoopPos numPoints running ws.length i := by
  intro ws
  induction ws with
  | nil => intro i st eta clock curPos saved; rfl
  | cons w rest ih =>
    intro i st eta clock curPos saved
    obtain ⟨lat, lng⟩ := w
    cases hr : running i with
    | false => simp [simLoopGo, simLoopPos, hr]
    | true =>
      cases hst : simStepStatus numPoints i with
      | none => simp [simLoopGo, simLoopPos, hr, hst]
      | some v => simp [simLoopGo, simLoopPos, hr, hst, ih]

/-- Every checkpoint a loop traversal creates belongs to the simulated
shipment. -/
theorem simLoopGo_shipmentId (shipId numPoints stepHours : Nat)
    (running : Nat → Bool) :
    ∀ (ws : List (Rat × Rat)) (i : Nat) (st : String) (eta : Option Nat)
      (clock curPos saved : Nat) (c : Checkpoint),
      c ∈ (simLoopGo shipId numPoints stepHours running ws i st eta clock curPos saved).cps →
      c.shipmentId = shipId := by
  intro ws
  induction ws with
  | nil => intro i st eta clock curPos saved c hc; cases hc
  | cons w rest ih =>
    intro i st eta clock curPos saved c hc
    obtain ⟨lat, lng⟩ := w
    cases hr : running i with
    | false => simp [simLoopGo, hr] at hc
    | true =>
      cases hst : simStepStatus numPoints i with
      | none => simp [simLoopGo, hr, hst] at hc
      | some v =>
        simp only [simLoopGo, hr, hst, Bool.not_true, Bool.false_eq_true,
          if_false, List.mem_cons] at hc
        rcases hc with rfl | hc
        · rfl
        · exact ih _ _ _ _ _ _ c hc

/-- The persisted cursor after a traversal is the last created position
(or the initial cursor when no step ran). -/
theorem simLoopGo_curPos_getLastD (shipId numPoints stepHours : Nat)
    (running : Nat → Bool) :
    ∀ (ws : List (Rat × Rat)) (i : Nat) (st : String) (eta : Option Nat)
      (clock curPos saved : Nat),
      (simLoopGo shipId numPoints stepHours running ws i st eta clock curPos saved).curPos
        = ((simLoopGo shipId numPoints stepHours running ws i st eta clock curPos saved).cps.map
            (fun c => c.position)).getLastD curPos := by
  intro ws
  induction ws with
  | nil => intro i st eta clock curPos saved; rfl
  | cons w rest ih =>
    intro i st eta clock curPos saved
    obtain ⟨lat, lng⟩ := w
    cases hr : running i with
    | false => simp [simLoopGo, hr]
    | true =>
      cases hst : simStepStatus numPoints i with
      | none => simp [simLoopGo, hr, hst]
      | some v =>
        simp only [simLoopGo, hr, hst, Bool.not_true, Bool.false_eq_true,
          if_false, List.map_cons, List.getLastD_cons]
        exact ih _ _ _ _ _ _

/-- The skeleton is a run of consecutive positions: its last element over
the default `i - 1` is `i - 1` plus its length. -/
theorem simLoopPos_getLastD (numPoints : Nat) (running : Nat → Bool) :
    ∀ (len i : Nat), 1 ≤ i →
      (simLoopPos numPoints running len i).getLastD (i - 1)
        = (i - 1) + (simLoopPos numPoints running len i).length := by
  intro len
  induction len with
  | zero => intro i hi; rfl
  | succ n ih =>
    intro i hi
    cases hr : running i with
    | false => simp [simLoopPos, hr]
    | true =>
      cases hst : simStepStatus numPoints i with
      | none => simp [simLoopPos, hr, hst]
      | some v =>
        simp only [simLoopPos, hr, hst, Bool.not_true, Bool.false_eq_true,
          if_false, List.getLastD_cons, List.length_cons]
        have h := ih (i + 1) (by omega)
        simp only [Nat.add_sub_cancel] at h
        rw [h]
        omega

/-- Splitting a traversal at an arbitrary externally imposed stop and
resuming with an always-running status from the stop point produces the
positions of the uninterrupted traversal. -/
theorem simLoopPos_split (numPoints : Nat) (running1 : Nat → Bool) :
    ∀ (len i : Nat),
      simLoopPos numPoints running1 len i ++
        simLoopPos numPoints (fun _ => true)
          (len - (simLoopPos numPoints running1 len i).length)
          (i + (simLoopPos numPoints running1 len i).length)
        = simLoopPos numPoints (fun _ => true) len i := by
  intro len
  induction len with
  | zero => intro i; rfl
  | succ n ih =>
    intro i
    cases hr : running1 i with
    | false => simp [simLoopPos, hr]
    | true =>
      cases hst : simStepStatus numPoints i with
      | none => simp [simLoopPos, hr, hst]
      | some v =>
        simp only [simLoopPos, hr, hst, Bool.not_true, Bool.false_eq_true,
          if_false, List.length_cons, List.cons_append, Nat.succ_sub_succ]
        have h := ih (i + 1)
        rw [show i + ((simLoopPos numPoints running1 n (i + 1)).length + 1)
            = (i + 1) + (simLoopPos numPoints running1 n (i + 1)).length by omega]
        rw [h]

/-- The checkpoints a loop traversal creates all pass the shipment filter. -/
theorem filter_simLoopGo_cps (shipId numPoints stepHours : Nat)
    (running : Nat → Bool) (ws : List (Rat × Rat)) (i : Nat) (st : String)
    (eta : Option Nat) (clock curPos saved : Nat) :
    (simLoopGo shipId numPoints stepHours running ws i st eta clock curPos saved).cps.filter
        (fun c => c.shipmentId == shipId)
      = (simLoopGo shipId numPoints stepHours running ws i st eta clock curPos saved).cps :=
  List.filter_eq_self.mpr (fun c hc => by
    simp [simLoopGo_shipmentId shipId numPoints stepHours running ws i st eta
      clock curPos saved c hc])

/-- For a traversal that starts at the beginning (index 1, cursor 0), the
persisted cursor equals the number of created checkpoints. -/
theorem simLoopGo_curPos_eq_length (shipId numPoints stepHours : Nat)
    (running : Nat → Bool) (ws : List (Rat × Rat)) (st : String)
    (eta : Option Nat) (clock saved : Nat) :
    (simLoopGo shipId numPoints stepHours running ws 1 st eta clock 0 saved).curPos
      = (simLoopPos numPoints running ws.length 1).length := by
  rw [simLoopGo_curPos_getLastD, simLoopGo_positions]
  have h := simLoopPos_getLastD numPoints running ws.length 1 (by omega)
  simpa using h

/-- `simLoopPos_split` specialized to a traversal starting at index 1. -/
theorem simLoopPos_split_one (numPoints : Nat) (running1 : Nat → Bool)
    (len : Nat) :
    simLoopPos numPoints running1 len 1 ++
      simLoopPos numPoints (fun _ => true)
        (len - (simLoopPos numPoints running1 len 1).length)
        ((simLoopPos numPoints running1 len 1).length + 1)
      = simLoopPos numPoints (fun _ => true) len 1 := by
  have h := simLoopPos_split numPoints running1 len 1
  rwa [Nat.add_comm 1] at h

/-- C7: start a fresh simulation of a lone shipment under an arbitrary
externally imposed pause schedule; if the loop stops because the run status
was no longer `running` (the pause took effect), then `ContinueSimulation`
succeeds and resumes from the persisted cursor over the persisted waypoint
list, and the shipment's resulting checkpoint position sequence equals the
one an uninterrupted run produces — no waypoint replayed, skipped or
regenerated. -/
theorem pause_continue_preserves_positions (s : Shipment)
    (numPoints stepHours : Nat) (dev : Nat → Rat) (now now2 : Nat)
    (running1 : Nat → Bool)
    (hstop : ((run_simulation_async (singletonDB s) s.id numPoints stepHours dev now running1).2.map
      (fun r => r.outcome)) = some .stopped) :
    continuedPositions
        ((run_simulation_async (singletonDB s) s.id numPoints stepHours dev now running1).1)
        s.tracking s.id dev now2
      = some (shipPositions
          (run_simulation_async (singletonDB s) s.id numPoints stepHours dev now
            (fun _ => true)).1 s.id) := by
  have houtcome : (simLoopGo s.id numPoints stepHours running1
      (generate_waypoints s.originLat s.originLng s.destLat s.destLng numPoints dev)
      1 s.status s.eta now 0 now).outcome = .stopped := by
    simpa [run_simulation_async, singletonDB, findShipmentById, findSimState,
      List.find?] using hstop
  simp only [continuedPositions, continue_simulation, run_simulation_async,
    singletonDB, findShipment, findShipmentById, findSimState, updateShipment,
    shipPositions, List.find?, beq_self_eq_true, houtcome, if_true, ite_true,
    bne_self_eq_false, Bool.false_eq_true, if_false, zero_add,
    List.drop_zero, List.nil_append, List.map_cons, List.map_nil,
    List.filter_append, List.map_append, List.length_drop,
    filter_simLoopGo_cps, simLoopGo_positions, simLoopGo_curPos_eq_length]
  rw [simLoopPos_split_one]

/-- C7 witness: the concrete shipment simulated with 4 points and paused
after step 2; continuing produces the positions of the uninterrupted run. -/
theorem pause_continue_preserves_positions_witness :
    ((run_simulation_async (singletonDB exShipment) 1 4 2 (fun _ => 0) 0
        (fun i => decide (i ≤ 2))).2.map (fun r => r.outcome))
      = some .stopped ∧
    continuedPositions
        ((run_simulation_async (singletonDB exShipment) 1 4 2 (fun _ => 0) 0
          (fun i => decide (i ≤ 2))).1) "TRK1" 1 (fun _ => 0) 99
      = some (shipPositions
          (run_simulation_async (singletonDB exShipment) 1 4 2 (fun _ => 0) 0
            (fun _ => true)).1 1) := by
  constructor
  · rfl
  · exact pause_continue_preserves_positions exShipment 4 2 (fun _ => 0) 0 99
      (fun i => decide (i ≤ 2)) (by rfl)

end Consignment
